import Mathlib

/-!
Verification development for the oracle_priority program
(programs/poc-oracles/src/lib.rs).

The embedding models:
  * the fixed-point conversion trait impl for rust_decimal Decimal
    (from_account / to_account, lib.rs 232-245), with the relevant
    rust_decimal semantics (96-bit mantissa, scale up to 28, value
    equality) made explicit;
  * the priority validation predicate check_oracle_priorities
    (lib.rs 183-200);
  * the instruction handlers update_priority (lib.rs 32-49),
    update_oracles (lib.rs 51-62) and get_price (lib.rs 64-99).

Rust panics (unwrap on None/Err, array index out of bounds, Decimal
multiplication overflow) abort a Solana transaction; they are modelled
as the `none` case of an outer Option.  A returned program error is
Except.error; in both abort cases the on-chain account is rolled back,
which the *_post functions make explicit.
-/

/-- The rust_decimal mantissa bound: mantissas are 96-bit integers. -/
def POW96 : Nat := 2 ^ 96

/-- The u128 bound, the range of the stored compact price. -/
def POW128 : Nat := 2 ^ 128

/-- lib.rs 223: a wad is a decimal number with 18 digits of precision. -/
def WAD : Nat := 1000000000000000000

/-- rust_decimal Decimal: sign flag, 96-bit unsigned mantissa, scale.
Real values satisfy m < 2 ^ 96 and scale ≤ 28; the represented value is
(-1 if neg) * m / 10 ^ scale.  Rust Decimal equality (==) compares the
represented values, embedded here by Decimal.val. -/
structure Decimal where
  neg : Bool
  m : Nat
  scale : Nat
  deriving DecidableEq

/-- The rational value represented by a Decimal; rust Decimal == is
equality of these values. -/
def Decimal.val (x : Decimal) : ℚ :=
  (if x.neg then -1 else 1) * (x.m : ℚ) / 10 ^ x.scale

/-- Mantissa-fitting loop of rust_decimal multiplication: while the
product mantissa does not fit in 96 bits and the scale is positive,
divide the mantissa by 10 and decrement the scale, remembering the last
remainder for the final rounding step.  Arguments: mantissa, last
remainder, remaining scale; result: (mantissa, scale, last remainder). -/
def fitLoop (m r : Nat) : Nat → Nat × Nat × Nat
  | 0 => (m, 0, r)
  | s + 1 => if m < POW96 then (m, s + 1, r) else fitLoop (m / 10) (m % 10) s

/-- rust_decimal multiplication seb * self specialised to seb = 10^18 at
scale 0, as used by to_account (lib.rs 243-244): the exact product has
mantissa 10^18 * m at the operand scale; if that mantissa exceeds 96
bits it is scaled down with a final round-half-up on the last remainder;
`none` models the multiplication-overflow panic when the mantissa still
does not fit at scale 0. -/
def mulSeb (x : Decimal) : Option Decimal :=
  let t := fitLoop (WAD * x.m) 0 x.scale
  let m2 := if 5 ≤ t.2.2 then t.1 + 1 else t.1
  if m2 < POW96 then some (Decimal.mk x.neg m2 t.2.1) else none

/-- rust_decimal ToPrimitive to_u128: None for negative values, else the
integer part (fraction truncated) when it fits in u128. -/
def toU128 (x : Decimal) : Option Nat :=
  if x.neg ∧ x.m ≠ 0 then none
  else if x.m / 10 ^ x.scale < POW128 then some (x.m / 10 ^ x.scale) else none

/-- lib.rs 242-245: fn to_account = (seb * self).to_u128().unwrap().
`none` models a panic, from the multiplication overflow or from unwrap
on a None returned by to_u128. -/
def to_account (x : Decimal) : Option Nat :=
  (mulSeb x).bind toU128

/-- lib.rs 233-236: fn from_account a = Decimal::from_u128(a).unwrap() / seb.
from_u128 returns None when a does not fit the 96-bit mantissa, so the
unwrap panics (`none`); otherwise the quotient a / 10^18 is exactly
representable (mantissa a < 2^96 at scale 18 ≤ 28) and rust_decimal
division returns that exact value. -/
def from_account (a : Nat) : Option Decimal :=
  if a < POW96 then some (Decimal.mk false a 18) else none

/-- Opaque account address (solana Pubkey), an opaque key here. -/
abbrev Pubkey := Nat

/-- Opaque 32-byte feed identifier ([u8; 32]), an opaque key here. -/
abbrev Bytes32 := Nat

/-- lib.rs 163-173: the OracleInfo account.  i8 priorities are embedded
as Int (all comparisons performed on them are order comparisons, which
agree with Int on the i8 range); u128/u64 fields as Nat. -/
structure OracleInfo where
  vault_type : Pubkey
  oracle_pyth : Bytes32
  oracle_switchboard : Pubkey
  priority_pyth : Int
  priority_switchboard : Int
  vault_type_name : String
  recent_price : Nat
  last_update : Nat
  deriving DecidableEq

/-- lib.rs 175-181: the program error enum.  Note that it has no
overflow variant of any kind. -/
inductive OracleError where
  | InvalidPriorities
  | NoPriceAvailable
  deriving DecidableEq

/-- lib.rs 183-200: fn check_oracle_priorities, with the three
early-return rejections written as nested conditionals. -/
def check_oracle_priorities (pyth switchboard : Int) : Bool :=
  if pyth < 0 ∧ switchboard < 0 then false
  else if (0 ≤ pyth ∧ 2 < pyth) ∨ (0 ≤ switchboard ∧ 2 < switchboard) then false
  else if 0 ≤ pyth ∧ 0 ≤ switchboard ∧ pyth = switchboard then false
  else true

/-- lib.rs 32-49: fn update_priority.  require! returns the error and
aborts the transaction when validation fails; on success both priority
fields are overwritten. -/
def update_priority (info : OracleInfo) (pyth_priority switchboard_priority : Int) :
    Except OracleError OracleInfo :=
  if check_oracle_priorities pyth_priority switchboard_priority then
    Except.ok { info with
      priority_pyth := pyth_priority, priority_switchboard := switchboard_priority }
  else Except.error OracleError.InvalidPriorities

/-- The account visible after an update_priority transaction: an Err
return aborts the transaction, rolling back every write. -/
def update_priority_post (info : OracleInfo) (p s : Int) : OracleInfo :=
  match update_priority info p s with
  | Except.ok i2 => i2
  | Except.error _ => info

/-- lib.rs 51-62: fn update_oracles overwrites the two identifier
fields, never fails. -/
def update_oracles (info : OracleInfo) (pyth_oracle : Bytes32)
    (switchboard_oracle : Pubkey) : OracleInfo :=
  { info with oracle_pyth := pyth_oracle, oracle_switchboard := switchboard_oracle }

/-- State of the external switchboard feed account as seen by
load_switchboard: PullFeedAccountData::parse may fail, or succeed with
feed.value() either failing or yielding a price. -/
inductive ParseResult where
  | err
  | ok (value : Option Decimal)
  deriving DecidableEq

/-- lib.rs 202-211: fn load_switchboard = parse(...).unwrap() then
feed.value().unwrap().  Both unwraps panic on failure (`none`); on
success the price is returned as Ok.  An Err value is never returned. -/
def load_switchboard : ParseResult → Option (Except Unit Decimal)
  | ParseResult.err => none
  | ParseResult.ok none => none
  | ParseResult.ok (some p) => some (Except.ok p)

/-- lib.rs 77 and 88: prices[idx] = Some(p) on the prices array;
`none` models the Rust index-out-of-bounds panic. -/
def setSlot (l : List (Option Decimal)) (i : Nat) (p : Decimal) :
    Option (List (Option Decimal)) :=
  if i < l.length then some (l.set i (some p)) else none

/-- lib.rs 71-79: the pyth block of get_price.  pyth_res is the result
of load_pyth (lib.rs 213-220, a staleness-checked SDK read followed by a
Decimal conversion, all external); an Err is swallowed by the
if-let-Ok, an Ok price is assigned at index priority_pyth. -/
def pythStep (info : OracleInfo) (pyth_res : Except Unit Decimal)
    (l : List (Option Decimal)) : Option (List (Option Decimal)) :=
  if 0 ≤ info.priority_pyth then
    match pyth_res with
    | Except.ok p => setSlot l info.priority_pyth.toNat p
    | Except.error _ => some l
  else some l

/-- lib.rs 82-90: the switchboard block of get_price.  A panic inside
load_switchboard propagates; the if-let-Ok arm for an Err value is kept
for fidelity although load_switchboard never returns Err. -/
def sbStep (info : OracleInfo) (sb : ParseResult)
    (l : List (Option Decimal)) : Option (List (Option Decimal)) :=
  if 0 ≤ info.priority_switchboard then
    match load_switchboard sb with
    | none => none
    | some (Except.ok p) => setSlot l info.priority_switchboard.toNat p
    | some (Except.error _) => some l
  else some l

/-- lib.rs 68-90: let mut prices = [None, None] (a TWO element array),
then the pyth block, then the switchboard block. -/
def build_prices (info : OracleInfo) (pyth_res : Except Unit Decimal)
    (sb : ParseResult) : Option (List (Option Decimal)) :=
  (pythStep info pyth_res [none, none]).bind (sbStep info sb)

/-- The same two blocks executed in the opposite order, used to state
the fetch-order-independence property. -/
def build_prices_swapped (info : OracleInfo) (pyth_res : Except Unit Decimal)
    (sb : ParseResult) : Option (List (Option Decimal)) :=
  (sbStep info sb [none, none]).bind (pythStep info pyth_res)

/-- lib.rs 92: prices.iter().flatten().next(), the first Some entry of
the array in index order. -/
def select_price (l : List (Option Decimal)) : Option Decimal :=
  (l.filterMap id).head?

/-- lib.rs 64-99: fn get_price.  clock_ts is the clock reading written
on success; an Err program error or a panic (`none`) aborts the
transaction. -/
def get_price (info : OracleInfo) (clock_ts : Nat) (pyth_res : Except Unit Decimal)
    (sb : ParseResult) : Option (Except OracleError OracleInfo) :=
  (build_prices info pyth_res sb).bind fun prices =>
    match select_price prices with
    | some price =>
        (to_account price).map fun a =>
          Except.ok { info with recent_price := a, last_update := clock_ts }
    | none => some (Except.error OracleError.NoPriceAvailable)

/-- get_price with the two fetch blocks in the opposite order. -/
def get_price_swapped (info : OracleInfo) (clock_ts : Nat)
    (pyth_res : Except Unit Decimal) (sb : ParseResult) :
    Option (Except OracleError OracleInfo) :=
  (build_prices_swapped info pyth_res sb).bind fun prices =>
    match select_price prices with
    | some price =>
        (to_account price).map fun a =>
          Except.ok { info with recent_price := a, last_update := clock_ts }
    | none => some (Except.error OracleError.NoPriceAvailable)

/-- The account visible after a get_price transaction: only a successful
run changes it; a returned error and a panic both abort the transaction
and roll back every write. -/
def get_price_post (info : OracleInfo) (clock_ts : Nat)
    (pyth_res : Except Unit Decimal) (sb : ParseResult) : OracleInfo :=
  match get_price info clock_ts pyth_res sb with
  | some (Except.ok i2) => i2
  | _ => info

section ValidationLemmas

/-- Characterisation of the rejected configurations, used by several
theorems below. -/
lemma check_oracle_priorities_eq_false_iff (p s : Int) :
    check_oracle_priorities p s = false ↔
      (p < 0 ∧ s < 0) ∨ (0 ≤ p ∧ 2 < p) ∨ (0 ≤ s ∧ 2 < s) ∨
      (0 ≤ p ∧ 0 ≤ s ∧ p = s) := by
  unfold check_oracle_priorities
  split_ifs with h1 h2 h3 <;> simp <;> omega

/-- An accepted configuration with both sources enabled has distinct
ranks. -/
lemma check_true_distinct {p s : Int} (h : check_oracle_priorities p s = true)
    (hp : 0 ≤ p) (hs : 0 ≤ s) : p ≠ s := by
  intro he
  have h2 : check_oracle_priorities p s = false :=
    (check_oracle_priorities_eq_false_iff p s).mpr
      (Or.inr (Or.inr (Or.inr ⟨hp, hs, he⟩)))
  rw [h] at h2
  cases h2

end ValidationLemmas

/-- Claim C5: check_oracle_priorities returns false on (-1,-1), (0,0)
and (3,-1), true on (0,1) and (-1,2), and in general rejects exactly the
configurations where both ranks are disabled (negative), where an
enabled rank exceeds 2, or where both ranks are enabled and equal. -/
theorem c5_validate_priorities :
    check_oracle_priorities (-1) (-1) = false ∧
    check_oracle_priorities 0 0 = false ∧
    check_oracle_priorities 3 (-1) = false ∧
    check_oracle_priorities 0 1 = true ∧
    check_oracle_priorities (-1) 2 = true ∧
    (∀ p s : Int, check_oracle_priorities p s = false ↔
      (p < 0 ∧ s < 0) ∨ (0 ≤ p ∧ 2 < p) ∨ (0 ≤ s ∧ 2 < s) ∨
      (0 ≤ p ∧ 0 ≤ s ∧ p = s)) :=
  ⟨by decide, by decide, by decide, by decide, by decide,
   check_oracle_priorities_eq_false_iff⟩

/-- Claim C9: update_priority changes only the two priority ranks and
update_oracles only the two source identifiers; every other field of the
record (key, identifiers resp. priorities, name, price, timestamp) is
untouched, and a validation failure returns InvalidPriorities leaving
the whole record unchanged. -/
theorem c9_update_frame :
    ∀ (info : OracleInfo) (p s : Int) (a : Bytes32) (b : Pubkey),
    ((update_priority_post info p s).vault_type = info.vault_type ∧
     (update_priority_post info p s).oracle_pyth = info.oracle_pyth ∧
     (update_priority_post info p s).oracle_switchboard = info.oracle_switchboard ∧
     (update_priority_post info p s).vault_type_name = info.vault_type_name ∧
     (update_priority_post info p s).recent_price = info.recent_price ∧
     (update_priority_post info p s).last_update = info.last_update) ∧
    (update_oracles info a b =
      { info with oracle_pyth := a, oracle_switchboard := b }) ∧
    (check_oracle_priorities p s = false →
      update_priority info p s = Except.error OracleError.InvalidPriorities ∧
      update_priority_post info p s = info) ∧
    (check_oracle_priorities p s = true →
      (update_priority_post info p s).priority_pyth = p ∧
      (update_priority_post info p s).priority_switchboard = s) := by
  intro info p s a b
  by_cases h : check_oracle_priorities p s = true
  · refine ⟨?_, rfl, ?_, ?_⟩
    · simp [update_priority_post, update_priority, h]
    · intro hf; rw [h] at hf; cases hf
    · intro _; simp [update_priority_post, update_priority, h]
  · have hf : check_oracle_priorities p s = false := by
      cases hc : check_oracle_priorities p s
      · rfl
      · exact absurd hc h
    refine ⟨?_, rfl, ?_, ?_⟩
    · simp [update_priority_post, update_priority, hf]
    · intro _; simp [update_priority_post, update_priority, hf]
    · intro ht; rw [ht] at hf; cases hf

/-- Witness for c9_update_frame at a concrete record: the rejected
update (0,0) leaves the record unchanged with InvalidPriorities, the
accepted update (0,1) sets exactly the two ranks. -/
theorem c9_update_frame_witness :
    (update_priority (OracleInfo.mk 1 2 3 (-1) (-1) "SOL" 0 0) 0 0 =
       Except.error OracleError.InvalidPriorities ∧
     update_priority_post (OracleInfo.mk 1 2 3 (-1) (-1) "SOL" 0 0) 0 0 =
       OracleInfo.mk 1 2 3 (-1) (-1) "SOL" 0 0) ∧
    ((update_priority_post (OracleInfo.mk 1 2 3 (-1) (-1) "SOL" 0 0) 0 1).priority_pyth = 0 ∧
     (update_priority_post (OracleInfo.mk 1 2 3 (-1) (-1) "SOL" 0 0) 0 1).priority_switchboard = 1) :=
  ⟨(c9_update_frame (OracleInfo.mk 1 2 3 (-1) (-1) "SOL" 0 0) 0 0 7 8).2.2.1 (by decide),
   (c9_update_frame (OracleInfo.mk 1 2 3 (-1) (-1) "SOL" 0 0) 0 1 7 8).2.2.2 (by decide)⟩

/-- Claim C1 (code bug evaluation): the configuration pyth rank 2,
switchboard disabled is accepted by check_oracle_priorities, yet when
the pyth reading is present get_price writes prices[2] into the
TWO-element array [None, None] and panics with an index out of bounds
(`none`), instead of placing the reading in a size-3 slot array and
selecting it. -/
theorem c1_rank2_reading_panics :
    check_oracle_priorities 2 (-1) = true ∧
    get_price (OracleInfo.mk 1 2 3 2 (-1) "SOL" 0 0) 5
      (Except.ok (Decimal.mk false 1 0)) (ParseResult.ok (some (Decimal.mk false 2 0))) =
      none := by
  exact ⟨by decide, rfl⟩

section FitLoopLemmas

/-- When the scale divides the mantissa exactly and the fully reduced
mantissa fits in 96 bits, the fitting loop performs only exact divisions
by 10, stops with a zero last remainder, and its result represents the
same value. -/
lemma fitLoop_exact : ∀ (s m : Nat), 10 ^ s ∣ m → m / 10 ^ s < POW96 →
    ∃ K, K ≤ s ∧ fitLoop m 0 s = (m / 10 ^ K, s - K, 0) ∧ m / 10 ^ K < POW96 := by
  intro s
  induction s with
  | zero =>
    intro m _ h2
    exact ⟨0, Nat.le_refl 0, by simp [fitLoop], by simpa using h2⟩
  | succ s ih =>
    intro m hdvd hlt
    by_cases hm : m < POW96
    · exact ⟨0, Nat.zero_le _, by simp [fitLoop, hm], by simpa using hm⟩
    · have h10 : (10 : Nat) ∣ m :=
        dvd_trans (dvd_pow_self 10 (Nat.succ_ne_zero s)) hdvd
      have hmod : m % 10 = 0 := by omega
      have hdvd2 : 10 ^ s ∣ m / 10 := by
        rcases hdvd with ⟨k, hk⟩
        refine ⟨k, ?_⟩
        rw [hk, pow_succ, show 10 ^ s * 10 * k = 10 * (10 ^ s * k) by ring]
        exact Nat.mul_div_cancel_left _ (by norm_num)
      have hlt2 : m / 10 / 10 ^ s < POW96 := by
        rw [Nat.div_div_eq_div_mul, show 10 * 10 ^ s = 10 ^ (s + 1) by rw [pow_succ]; ring]
        exact hlt
      obtain ⟨K, hK, hfit, hKlt⟩ := ih (m / 10) hdvd2 hlt2
      have hdd : m / 10 / 10 ^ K = m / 10 ^ (K + 1) := by
        rw [Nat.div_div_eq_div_mul, show 10 * 10 ^ K = 10 ^ (K + 1) by rw [pow_succ]; ring]
      refine ⟨K + 1, by omega, ?_, ?_⟩
      · have : fitLoop m 0 (s + 1) = fitLoop (m / 10) (m % 10) s := by
          simp [fitLoop, hm]
        rw [this, hmod, hfit, hdd, show s + 1 - (K + 1) = s - K by omega]
      · rw [← hdd]; exact hKlt

/-- A mantissa at least 2^128 times its scale factor never shrinks below
2^128 in the fitting loop. -/
lemma fitLoop_ge : ∀ (s m r : Nat), POW128 * 10 ^ s ≤ m → POW128 ≤ (fitLoop m r s).1 := by
  intro s
  induction s with
  | zero => intro m r h; simpa using h
  | succ s ih =>
    intro m r h
    have h96 : POW96 < POW128 := by norm_num [POW96, POW128]
    have h1 : POW128 ≤ m := by
      have : POW128 * 1 ≤ POW128 * 10 ^ (s + 1) :=
        Nat.mul_le_mul_left _ (Nat.one_le_pow _ _ (by norm_num))
      omega
    have hm : ¬ m < POW96 := by omega
    have hstep : fitLoop m r (s + 1) = fitLoop (m / 10) (m % 10) s := by
      simp [fitLoop, hm]
    rw [hstep]
    apply ih
    rw [Nat.le_div_iff_mul_le (by norm_num : 0 < 10)]
    calc POW128 * 10 ^ s * 10 = POW128 * 10 ^ (s + 1) := by rw [pow_succ]; ring
    _ ≤ m := h

/-- The fitting loop keeps a positive mantissa positive. -/
lemma fitLoop_pos : ∀ (s m r : Nat), 0 < m → 0 < (fitLoop m r s).1 := by
  intro s
  induction s with
  | zero => intro m r h; simpa using h
  | succ s ih =>
    intro m r h
    by_cases hm : m < POW96
    · simpa [fitLoop, hm] using h
    · have hstep : fitLoop m r (s + 1) = fitLoop (m / 10) (m % 10) s := by
        simp [fitLoop, hm]
      rw [hstep]
      apply ih
      have h10 : 10 ≤ m := le_trans (by norm_num [POW96]) (le_of_not_lt hm)
      exact Nat.div_pos h10 (by norm_num)

/-- On a non-negative decimal with at most 18 fractional digits whose
scaled value fits the 96-bit mantissa, to_account returns exactly the
scaled integer m * 10 ^ (18 - scale). -/
lemma to_account_exact (x : Decimal) (hneg : x.neg = false) (hs : x.scale ≤ 18)
    (hm : x.m * 10 ^ (18 - x.scale) < POW96) :
    to_account x = some (x.m * 10 ^ (18 - x.scale)) := by
  have hWAD : WAD = 10 ^ 18 := by norm_num [WAD]
  have hsplit : (10 : Nat) ^ 18 = 10 ^ x.scale * 10 ^ (18 - x.scale) := by
    rw [← pow_add]
    congr 1
    omega
  have hdvd : 10 ^ x.scale ∣ WAD * x.m :=
    ⟨10 ^ (18 - x.scale) * x.m, by rw [hWAD, hsplit]; ring⟩
  have hquot : WAD * x.m / 10 ^ x.scale = x.m * 10 ^ (18 - x.scale) := by
    rw [hWAD, hsplit,
      show 10 ^ x.scale * 10 ^ (18 - x.scale) * x.m =
        10 ^ x.scale * (x.m * 10 ^ (18 - x.scale)) by ring]
    exact Nat.mul_div_cancel_left _ (pow_pos (by norm_num) _)
  have hlt : WAD * x.m / 10 ^ x.scale < POW96 := by rw [hquot]; exact hm
  obtain ⟨K, hK, hfit, hKlt⟩ := fitLoop_exact x.scale (WAD * x.m) hdvd hlt
  have hmul : mulSeb x = some (Decimal.mk x.neg (WAD * x.m / 10 ^ K) (x.scale - K)) := by
    simp only [mulSeb, hfit]
    norm_num [hKlt]
  have hdd : WAD * x.m / 10 ^ K / 10 ^ (x.scale - K) = WAD * x.m / 10 ^ x.scale := by
    rw [Nat.div_div_eq_div_mul, ← pow_add, show K + (x.scale - K) = x.scale by omega]
  have h128 : WAD * x.m / 10 ^ K / 10 ^ (x.scale - K) < POW128 := by
    rw [hdd, hquot]
    exact lt_trans hm (by norm_num [POW96, POW128])
  unfold to_account
  rw [hmul]
  show toU128 (Decimal.mk x.neg (WAD * x.m / 10 ^ K) (x.scale - K)) = _
  unfold toU128
  rw [if_neg (by simp [hneg]), if_pos h128, hdd, hquot]

/-- A decimal whose scaled value reaches 2^128 makes to_account panic in
the seb * self multiplication: the product mantissa cannot be brought
under 96 bits. -/
lemma to_account_overflow (x : Decimal) (h : POW128 * 10 ^ x.scale ≤ WAD * x.m) :
    to_account x = none := by
  have h1 := fitLoop_ge x.scale (WAD * x.m) 0 h
  have h96 : POW96 < POW128 := by norm_num [POW96, POW128]
  have hmul : mulSeb x = none := by
    simp only [mulSeb]
    rw [if_neg]
    split <;> omega
  unfold to_account
  rw [hmul]
  rfl

end FitLoopLemmas

/-- Claim C3 counterexample: x = 10^12 is a representable non-negative
decimal with no fractional digits whose scaled value 10^30 lies within
the u128 compact range, yet to_account panics (the product mantissa
10^30 exceeds the 96-bit Decimal mantissa bound), so
fromCompact(toCompact(x)) does not return x: no value is produced at
all. -/
theorem c3_round_trip_fails_in_compact_range :
    WAD * (Decimal.mk false 1000000000000 0).m < POW128 ∧
    to_account (Decimal.mk false 1000000000000 0) = none :=
  ⟨by norm_num [WAD, POW128], rfl⟩

/-- Claim C3 as amended: for every representable non-negative decimal x
with at most 18 fractional digits whose scaled value x * 10^18 is below
2^96 (the Decimal mantissa bound, strictly smaller than the full u128
compact range), to_account returns the scaled integer exactly and
from_account maps it back to a decimal with exactly the value of x. -/
theorem c3_round_trip :
    ∀ x : Decimal, x.neg = false → x.scale ≤ 18 →
    x.m * 10 ^ (18 - x.scale) < POW96 →
    to_account x = some (x.m * 10 ^ (18 - x.scale)) ∧
    ∃ y, from_account (x.m * 10 ^ (18 - x.scale)) = some y ∧ y.val = x.val := by
  intro x hneg hs hm
  refine ⟨to_account_exact x hneg hs hm,
    Decimal.mk false (x.m * 10 ^ (18 - x.scale)) 18, ?_, ?_⟩
  · unfold from_account
    rw [if_pos hm]
  · unfold Decimal.val
    rw [hneg]
    norm_num
    rw [div_eq_div_iff (by positivity) (by positivity)]
    rw [mul_assoc, ← pow_add, show 18 - x.scale + x.scale = 18 by omega]
    ring

/-- Witness for c3_round_trip at x = 1.5 (mantissa 15, scale 1):
toCompact gives 15 * 10^17 and fromCompact returns a decimal of value
1.5 again. -/
theorem c3_round_trip_witness :
    to_account (Decimal.mk false 15 1) = some (15 * 10 ^ (18 - 1)) ∧
    ∃ y, from_account (15 * 10 ^ (18 - 1)) = some y ∧
      y.val = (Decimal.mk false 15 1).val :=
  c3_round_trip (Decimal.mk false 15 1) rfl (by norm_num) (by norm_num [POW96])

/-- Claim C4 counterexample: for x = 10^21 (a representable decimal
whose scaled value 10^39 exceeds the u128 range), to_account does not
fail with any typed OverflowError; it panics (`none`), aborting the call
— indeed the program error enum OracleError has no overflow variant at
all.  The resolve call that selects this reading likewise aborts by
panic rather than returning an error. -/
theorem c4_overflow_panics_not_typed_error :
    to_account (Decimal.mk false 1000000000000000000000 0) = none ∧
    get_price (OracleInfo.mk 1 2 3 (-1) 0 "SOL" 0 0) 7 (Except.error ())
      (ParseResult.ok (some (Decimal.mk false 1000000000000000000000 0))) = none :=
  ⟨rfl, rfl⟩

/-- Claim C4 as amended: converting a representable decimal whose value
scaled by 10^18 reaches 2^128 makes to_account abort by panic (there is
no OverflowError in the code), and a resolve call selecting such a
reading aborts with the stored record unchanged — no partial write. -/
theorem c4_overflow_aborts :
    ∀ (x : Decimal) (info : OracleInfo) (ts : Nat) (pr : Except Unit Decimal),
    x.m < POW96 → POW128 * 10 ^ x.scale ≤ WAD * x.m →
    to_account x = none ∧
    (info.priority_pyth < 0 → info.priority_switchboard = 0 →
      get_price info ts pr (ParseResult.ok (some x)) = none ∧
      get_price_post info ts pr (ParseResult.ok (some x)) = info) := by
  intro x info ts pr hxm h
  have hta : to_account x = none := to_account_overflow x h
  refine ⟨hta, fun hp hs => ?_⟩
  have hp2 : ¬ (0 ≤ info.priority_pyth) := by omega
  have hgp : get_price info ts pr (ParseResult.ok (some x)) = none := by
    simp [get_price, build_prices, pythStep, sbStep, load_switchboard, setSlot,
      select_price, hp2, hs, hta]
  refine ⟨hgp, ?_⟩
  unfold get_price_post
  rw [hgp]

/-- Witness for c4_overflow_aborts at x = 10^21 with a record whose only
enabled source is switchboard at rank 0. -/
theorem c4_overflow_aborts_witness :
    to_account (Decimal.mk false 10000000000000000000000000 2) = none ∧
    get_price (OracleInfo.mk 4 5 6 (-1) 0 "BTC" 1 2) 11 (Except.error ())
      (ParseResult.ok (some (Decimal.mk false 10000000000000000000000000 2))) = none ∧
    get_price_post (OracleInfo.mk 4 5 6 (-1) 0 "BTC" 1 2) 11 (Except.error ())
      (ParseResult.ok (some (Decimal.mk false 10000000000000000000000000 2))) =
      OracleInfo.mk 4 5 6 (-1) 0 "BTC" 1 2 := by
  have h := c4_overflow_aborts (Decimal.mk false 10000000000000000000000000 2)
    (OracleInfo.mk 4 5 6 (-1) 0 "BTC" 1 2) 11 (Except.error ())
    (by norm_num [POW96]) (by norm_num [POW128, WAD])
  exact ⟨h.1, h.2 (by norm_num) rfl⟩

/-- Claim C10: to_account is defined only on non-negative inputs — for
every decimal of negative value the seb-scaled product keeps the sign
and a positive mantissa, so to_u128 returns None and the unwrap panics:
no value is ever produced. -/
theorem c10_to_account_negative_none :
    ∀ x : Decimal, x.val < 0 → to_account x = none := by
  intro x hval
  cases hneg : x.neg with
  | false =>
    exfalso
    rw [Decimal.val, hneg] at hval
    have h0 : (0 : ℚ) ≤ 1 * (x.m : ℚ) / 10 ^ x.scale := by positivity
    simp only [if_neg Bool.false_ne_true] at hval
    linarith
  | true =>
    have hm : 0 < x.m := by
      by_contra h0
      have hm0 : x.m = 0 := by omega
      rw [Decimal.val, hm0] at hval
      norm_num at hval
    cases hmul : mulSeb x with
    | none =>
      unfold to_account
      rw [hmul]
      rfl
    | some y =>
      have hy : y.neg = true ∧ 0 < y.m := by
        have hpos : 0 < (fitLoop (WAD * x.m) 0 x.scale).1 :=
          fitLoop_pos x.scale (WAD * x.m) 0 (Nat.mul_pos (by norm_num [WAD]) hm)
        simp only [mulSeb] at hmul
        split at hmul
        · split at hmul
          · have hyx := Option.some.inj hmul
            subst hyx
            exact ⟨hneg, Nat.succ_pos _⟩
          · exact Option.noConfusion hmul
        · split at hmul
          · have hyx := Option.some.inj hmul
            subst hyx
            exact ⟨hneg, hpos⟩
          · exact Option.noConfusion hmul
      unfold to_account
      rw [hmul]
      show toU128 y = none
      unfold toU128
      rw [if_pos ⟨hy.1, by omega⟩]

/-- Witness for c10_to_account_negative_none at the decimal -1. -/
theorem c10_to_account_negative_none_witness :
    to_account (Decimal.mk true 1 0) = none :=
  c10_to_account_negative_none (Decimal.mk true 1 0) (by norm_num [Decimal.val])

section ResolverLemmas

lemma pythStep_error (info : OracleInfo) (e : Unit) (l : List (Option Decimal)) :
    pythStep info (Except.error e) l = some l := by
  unfold pythStep
  split <;> rfl

lemma pythStep_disabled (info : OracleInfo) (pr : Except Unit Decimal)
    (l : List (Option Decimal)) (h : info.priority_pyth < 0) :
    pythStep info pr l = some l := by
  unfold pythStep
  rw [if_neg (by omega)]

lemma pythStep_ok (info : OracleInfo) (p : Decimal) (l : List (Option Decimal))
    (h : 0 ≤ info.priority_pyth) :
    pythStep info (Except.ok p) l = setSlot l info.priority_pyth.toNat p := by
  unfold pythStep
  rw [if_pos h]

lemma sbStep_disabled (info : OracleInfo) (sb : ParseResult)
    (l : List (Option Decimal)) (h : info.priority_switchboard < 0) :
    sbStep info sb l = some l := by
  unfold sbStep
  rw [if_neg (by omega)]

lemma sbStep_panic (info : OracleInfo) (sb : ParseResult) (l : List (Option Decimal))
    (h : 0 ≤ info.priority_switchboard) (hl : load_switchboard sb = none) :
    sbStep info sb l = none := by
  unfold sbStep
  rw [if_pos h, hl]

lemma sbStep_ok (info : OracleInfo) (sb : ParseResult) (p : Decimal)
    (l : List (Option Decimal)) (h : 0 ≤ info.priority_switchboard)
    (hl : load_switchboard sb = some (Except.ok p)) :
    sbStep info sb l = setSlot l info.priority_switchboard.toNat p := by
  unfold sbStep
  rw [if_pos h, hl]

/-- Assignments into distinct slots commute, including the out-of-bounds
panic cases, since setting a slot preserves the array length. -/
lemma setSlot_comm (l : List (Option Decimal)) (i j : Nat) (a b : Decimal)
    (hij : i ≠ j) :
    ((setSlot l i a).bind fun l2 => setSlot l2 j b) =
    ((setSlot l j b).bind fun l2 => setSlot l2 i a) := by
  unfold setSlot
  by_cases hi : i < l.length <;> by_cases hj : j < l.length <;>
    simp [hi, hj, List.length_set, List.set_comm _ _ _ hij]

/-- load_switchboard never produces an Err value: it panics or succeeds. -/
lemma load_switchboard_no_error (sb : ParseResult) :
    load_switchboard sb = none ∨ ∃ p, load_switchboard sb = some (Except.ok p) := by
  cases sb with
  | err => exact Or.inl rfl
  | ok v =>
    cases v with
    | none => exact Or.inl rfl
    | some p => exact Or.inr ⟨p, rfl⟩

end ResolverLemmas

section ResolveBehaviour

/-- Under a configuration accepted by validation, the two fetch blocks
of get_price assign distinct slots (or are inert / panic in both
orders), so building the slot array commutes. -/
lemma build_prices_comm (info : OracleInfo) (pr : Except Unit Decimal) (sb : ParseResult)
    (h : check_oracle_priorities info.priority_pyth info.priority_switchboard = true) :
    build_prices info pr sb = build_prices_swapped info pr sb := by
  unfold build_prices build_prices_swapped
  by_cases hp : 0 ≤ info.priority_pyth
  · by_cases hs : 0 ≤ info.priority_switchboard
    · have hne : info.priority_pyth.toNat ≠ info.priority_switchboard.toNat := by
        have := check_true_distinct h hp hs
        omega
      cases pr with
      | error e =>
        have hpy : ∀ l, pythStep info (Except.error e) l = some l :=
          fun l => pythStep_error info e l
        cases hres : sbStep info sb [none, none] with
        | none => simp [hres, hpy]
        | some l2 => simp [hres, hpy]
      | ok p =>
        have hpy : ∀ l, pythStep info (Except.ok p) l =
            setSlot l info.priority_pyth.toNat p :=
          fun l => pythStep_ok info p l hp
        rcases load_switchboard_no_error sb with hl | ⟨q, hl⟩
        · have hsb : ∀ l, sbStep info sb l = none :=
            fun l => sbStep_panic info sb l hs hl
          simp only [hpy, hsb]
          cases hset : setSlot [none, none] info.priority_pyth.toNat p <;>
            simp [hset]
        · have hsb : ∀ l, sbStep info sb l =
              setSlot l info.priority_switchboard.toNat q :=
            fun l => sbStep_ok info sb q l hs hl
          simp only [hpy, hsb]
          exact setSlot_comm [none, none] _ _ p q hne
    · have hsb : ∀ l, sbStep info sb l = some l :=
        fun l => sbStep_disabled info sb l (by omega)
      simp only [hsb]
      cases hres : pythStep info pr [none, none] <;> simp [hres]
  · have hpy : ∀ l, pythStep info pr l = some l :=
      fun l => pythStep_disabled info pr l (by omega)
    simp only [hpy]
    cases hres : sbStep info sb [none, none] <;> simp [hres]

/-- Claim C7: under every configuration accepted by
check_oracle_priorities, performing the two candidate fetch/assignment
blocks in either order yields the same resolve outcome — the same
selected price, stored record and success, error or abort result —
because the slots written are distinct. -/
theorem c7_fetch_order_irrelevant :
    ∀ (info : OracleInfo) (ts : Nat) (pr : Except Unit Decimal) (sb : ParseResult),
    check_oracle_priorities info.priority_pyth info.priority_switchboard = true →
    get_price info ts pr sb = get_price_swapped info ts pr sb := by
  intro info ts pr sb h
  unfold get_price get_price_swapped
  rw [build_prices_comm info pr sb h]

/-- Witness for c7_fetch_order_irrelevant at an accepted configuration
(ranks 0 and 1) with both readings present. -/
theorem c7_fetch_order_irrelevant_witness :
    get_price (OracleInfo.mk 1 2 3 0 1 "SOL" 0 0) 9 (Except.ok (Decimal.mk false 3 0))
      (ParseResult.ok (some (Decimal.mk false 2 1))) =
    get_price_swapped (OracleInfo.mk 1 2 3 0 1 "SOL" 0 0) 9 (Except.ok (Decimal.mk false 3 0))
      (ParseResult.ok (some (Decimal.mk false 2 1))) :=
  c7_fetch_order_irrelevant (OracleInfo.mk 1 2 3 0 1 "SOL" 0 0) 9
    (Except.ok (Decimal.mk false 3 0)) (ParseResult.ok (some (Decimal.mk false 2 1)))
    (by decide)

end ResolveBehaviour

section FailureHandling

/-- With the pyth fetch failing and switchboard disabled, get_price
finds no candidate and returns NoPriceAvailable. -/
lemma get_price_pyth_error_sb_disabled (info : OracleInfo) (ts : Nat) (sb : ParseResult)
    (hs : info.priority_switchboard < 0) :
    get_price info ts (Except.error ()) sb =
      some (Except.error OracleError.NoPriceAvailable) := by
  unfold get_price build_prices
  have hsb := sbStep_disabled info sb [none, none] hs
  simp [pythStep_error, hsb, select_price]

/-- With switchboard enabled, a failing switchboard account read makes
get_price panic, whatever the pyth outcome. -/
lemma get_price_sb_err_none (info : OracleInfo) (ts : Nat) (pr : Except Unit Decimal)
    (hs : 0 ≤ info.priority_switchboard) :
    get_price info ts pr ParseResult.err = none := by
  unfold get_price build_prices
  have hsb : ∀ l, sbStep info ParseResult.err l = none :=
    fun l => sbStep_panic info ParseResult.err l hs rfl
  cases hres : pythStep info pr [none, none] with
  | none => simp [hres]
  | some l2 => simp [hres, hsb]

end FailureHandling

/-- Claim C2 counterexample: switchboard is the only enabled source
(rank 0) and its fetch fails (account parse error); the claim says this
is swallowed as a missing candidate and surfaces at worst as
NoPriceAvailable, but get_price panics (`none`): the unwraps inside
load_switchboard abort the whole resolve call because of that fetch
failure alone. -/
theorem c2_switchboard_failure_aborts :
    get_price (OracleInfo.mk 1 2 3 (-1) 0 "SOL" 0 0) 4 (Except.error ())
      ParseResult.err = none :=
  rfl

/-- Claim C2 as amended: a failing PYTH fetch is swallowed — it leaves
the slot array untouched, so resolve continues with the switchboard
block alone, and when no candidate remains the only resolve-level
failure is NoPriceAvailable; a failing SWITCHBOARD fetch however panics
and aborts the resolve call by itself. -/
theorem c2_fetch_failure_handling :
    (∀ (info : OracleInfo) (sb : ParseResult),
      build_prices info (Except.error ()) sb = sbStep info sb [none, none]) ∧
    (∀ (info : OracleInfo) (ts : Nat) (sb : ParseResult),
      0 ≤ info.priority_pyth → info.priority_switchboard < 0 →
      get_price info ts (Except.error ()) sb =
        some (Except.error OracleError.NoPriceAvailable)) ∧
    (∀ (info : OracleInfo) (ts : Nat) (pr : Except Unit Decimal),
      0 ≤ info.priority_switchboard →
      get_price info ts pr ParseResult.err = none) := by
  refine ⟨fun info sb => ?_, fun info ts sb _ hs => ?_, fun info ts pr hs => ?_⟩
  · unfold build_prices
    rw [pythStep_error]
    rfl
  · exact get_price_pyth_error_sb_disabled info ts sb hs
  · exact get_price_sb_err_none info ts pr hs

/-- Witness for c2_fetch_failure_handling: pyth enabled at rank 0 with a
failed fetch and switchboard disabled gives NoPriceAvailable; with
switchboard enabled at rank 1 and a failing account read, the call
panics. -/
theorem c2_fetch_failure_handling_witness :
    get_price (OracleInfo.mk 1 2 3 0 (-1) "SOL" 0 0) 5 (Except.error ())
      ParseResult.err = some (Except.error OracleError.NoPriceAvailable) ∧
    get_price (OracleInfo.mk 1 2 3 (-1) 1 "SOL" 0 0) 5 (Except.error ())
      ParseResult.err = none :=
  ⟨c2_fetch_failure_handling.2.1 (OracleInfo.mk 1 2 3 0 (-1) "SOL" 0 0) 5
      ParseResult.err (by decide) (by decide),
   c2_fetch_failure_handling.2.2 (OracleInfo.mk 1 2 3 (-1) 1 "SOL" 0 0) 5
      (Except.error ()) (by decide)⟩

/-- Claim C8 counterexample: both sources enabled (pyth rank 0,
switchboard rank 1) and both fetches fail; the claim says the result is
NoPriceAvailable, but the switchboard failure panics and the call aborts
(`none`) instead. -/
theorem c8_both_fail_panics :
    get_price (OracleInfo.mk 1 2 3 0 1 "SOL" 6 7) 9 (Except.error ())
      ParseResult.err = none :=
  rfl

/-- Claim C8 as amended: when the enabled sources produce no reading
without panicking (pyth fetch failed, switchboard disabled), resolve
returns NoPriceAvailable and the record is unchanged; when an enabled
switchboard fetch fails, resolve aborts by panic — also leaving the
record unchanged — rather than returning NoPriceAvailable. -/
theorem c8_total_failure :
    (∀ (info : OracleInfo) (ts : Nat) (sb : ParseResult),
      0 ≤ info.priority_pyth → info.priority_switchboard < 0 →
      get_price info ts (Except.error ()) sb =
        some (Except.error OracleError.NoPriceAvailable) ∧
      get_price_post info ts (Except.error ()) sb = info) ∧
    (∀ (info : OracleInfo) (ts : Nat) (pr : Except Unit Decimal),
      0 ≤ info.priority_pyth → 0 ≤ info.priority_switchboard →
      get_price info ts pr ParseResult.err = none ∧
      get_price_post info ts pr ParseResult.err = info) := by
  constructor
  · intro info ts sb _ hs
    have h := get_price_pyth_error_sb_disabled info ts sb hs
    refine ⟨h, ?_⟩
    unfold get_price_post
    rw [h]
  · intro info ts pr _ hs
    have h := get_price_sb_err_none info ts pr hs
    refine ⟨h, ?_⟩
    unfold get_price_post
    rw [h]

/-- Witness for c8_total_failure at concrete records: a failed pyth
fetch with switchboard disabled yields NoPriceAvailable with the record
intact; both sources enabled and both fetches failing yields a panic
with the record intact. -/
theorem c8_total_failure_witness :
    (get_price (OracleInfo.mk 4 5 6 1 (-1) "ETH" 8 9) 12 (Except.error ())
       ParseResult.err = some (Except.error OracleError.NoPriceAvailable) ∧
     get_price_post (OracleInfo.mk 4 5 6 1 (-1) "ETH" 8 9) 12 (Except.error ())
       ParseResult.err = OracleInfo.mk 4 5 6 1 (-1) "ETH" 8 9) ∧
    (get_price (OracleInfo.mk 4 5 6 1 0 "ETH" 8 9) 12 (Except.error ())
       ParseResult.err = none ∧
     get_price_post (OracleInfo.mk 4 5 6 1 0 "ETH" 8 9) 12 (Except.error ())
       ParseResult.err = OracleInfo.mk 4 5 6 1 0 "ETH" 8 9) :=
  ⟨c8_total_failure.1 (OracleInfo.mk 4 5 6 1 (-1) "ETH" 8 9) 12 ParseResult.err
      (by decide) (by decide),
   c8_total_failure.2 (OracleInfo.mk 4 5 6 1 0 "ETH" 8 9) 12 (Except.error ())
      (by decide) (by decide)⟩

/-- Claim C6 counterexample: the configuration switchboard rank 2, pyth
disabled is accepted by validation and the switchboard reading is
present, yet resolve selects nothing: the assignment prices[2] into the
two-element array panics, refuting the general rule that resolve always
selects the lowest-numbered non-empty slot of a size-3 array scanning
ranks 0, 1, 2. -/
theorem c6_rank2_reading_not_selected :
    check_oracle_priorities (-1) 2 = true ∧
    get_price (OracleInfo.mk 1 2 3 (-1) 2 "SOL" 0 0) 3 (Except.error ())
      (ParseResult.ok (some (Decimal.mk false 1 0))) = none :=
  ⟨by decide, rfl⟩

/-- Claim C6 as amended: with pyth at rank 1 and switchboard at rank 0
and both readings present, resolve selects the switchboard (rank 0)
value; with pyth at rank 0 failing and switchboard at rank 1 succeeding,
resolve selects the switchboard value (fallback); and in general the
scan picks the first non-empty slot of the TWO-element array in
increasing index order — rank 2 placements do not reach selection (they
panic, see the rank-2 counterexample). -/
theorem c6_selection_priority :
    ∀ (info : OracleInfo) (ts : Nat) (pA pB : Decimal),
    (info.priority_pyth = 1 → info.priority_switchboard = 0 →
      get_price info ts (Except.ok pA) (ParseResult.ok (some pB)) =
        (to_account pB).map fun a =>
          Except.ok { info with recent_price := a, last_update := ts }) ∧
    (info.priority_pyth = 0 → info.priority_switchboard = 1 →
      get_price info ts (Except.error ()) (ParseResult.ok (some pB)) =
        (to_account pB).map fun a =>
          Except.ok { info with recent_price := a, last_update := ts }) ∧
    (∀ a b : Option Decimal, select_price [a, b] = if a.isSome then a else b) := by
  intro info ts pA pB
  refine ⟨fun h1 h2 => ?_, fun h1 h2 => ?_, fun a b => ?_⟩
  · unfold get_price build_prices
    rw [pythStep_ok info pA [none, none] (by omega), h1]
    show (sbStep info (ParseResult.ok (some pB)) [none, some pA]).bind _ = _
    rw [sbStep_ok info (ParseResult.ok (some pB)) pB [none, some pA] (by omega) rfl, h2]
    rfl
  · unfold get_price build_prices
    rw [pythStep_error]
    show (sbStep info (ParseResult.ok (some pB)) [none, none]).bind _ = _
    rw [sbStep_ok info (ParseResult.ok (some pB)) pB [none, none] (by omega) rfl, h2]
    rfl
  · cases a with
    | none => cases b <;> rfl
    | some p => rfl

/-- Witness for c6_selection_priority: two concrete records exercising
the rank (1,0) both-present scenario and the rank (0,1) fallback
scenario, each selecting the switchboard reading 2 (stored compact as
2 * 10^18). -/
theorem c6_selection_priority_witness :
    get_price (OracleInfo.mk 1 2 3 1 0 "SOL" 0 0) 9 (Except.ok (Decimal.mk false 3 0))
      (ParseResult.ok (some (Decimal.mk false 2 0))) =
      ((to_account (Decimal.mk false 2 0)).map fun a =>
        Except.ok { OracleInfo.mk 1 2 3 1 0 "SOL" 0 0 with
          recent_price := a, last_update := 9 }) ∧
    get_price (OracleInfo.mk 1 2 3 0 1 "SOL" 0 0) 9 (Except.error ())
      (ParseResult.ok (some (Decimal.mk false 2 0))) =
      ((to_account (Decimal.mk false 2 0)).map fun a =>
        Except.ok { OracleInfo.mk 1 2 3 0 1 "SOL" 0 0 with
          recent_price := a, last_update := 9 }) :=
  ⟨(c6_selection_priority (OracleInfo.mk 1 2 3 1 0 "SOL" 0 0) 9 (Decimal.mk false 3 0)
      (Decimal.mk false 2 0)).1 rfl rfl,
   (c6_selection_priority (OracleInfo.mk 1 2 3 0 1 "SOL" 0 0) 9 (Decimal.mk false 3 0)
      (Decimal.mk false 2 0)).2.1 rfl rfl⟩
